import Mathlib

/-!
Shallow embedding of `src/service_exporter.rs` (the `ServiceMetricsExporter`
of the ECS service-metrics exporter) and proofs about its specification.

Modelling conventions:
* Rust `String`/`&str` values are Lean `String` (a `List Char` under the
  hood); `str::find` returns a byte index in Rust, but since it is only
  ever used with `split_at` at a character boundary, the char-index model
  produces the same split contents.
* The Docker API is modelled as an environment (`DockerEnv`) recording the
  response of each API call: `list_containers`, and per processed
  container (indexed by its position in the discovery list) the results of
  `create_exec`, `start_exec` (with the collected output stream folded in)
  and `inspect_exec`.
* `bollard` errors carry no structure we need, so `DockerError := String`.
* A Rust panic (`Option::unwrap` on `None`) is modelled as the `.error`
  side of an `Except String _` result; an ordinary Rust `None`/`Some`
  return value stays an `Option` inside the `.ok` side.
* Log-output bytes are modelled after `String::from_utf8_lossy` decoding,
  i.e. as the decoded text.
-/

namespace ServiceExporter

/-- `const DEFAULT_SERVICE_PORT_PATH: &'static str = "9100/metrics";` -/
def DEFAULT_SERVICE_PORT_PATH : String := "9100/metrics"

/-- `const UNKNOWN_SERVICE_NAME: &'static str = "unknown-service";` -/
def UNKNOWN_SERVICE_NAME : String := "unknown-service"

/-- Rust `char::is_whitespace`: the Unicode White_Space property. -/
def isRustWhitespace (c : Char) : Bool :=
  (0x09 ≤ c.val && c.val ≤ 0x0d) || c.val = 0x20 || c.val = 0x85 ||
  c.val = 0xa0 || c.val = 0x1680 || (0x2000 ≤ c.val && c.val ≤ 0x200a) ||
  c.val = 0x2028 || c.val = 0x2029 || c.val = 0x202f || c.val = 0x205f ||
  c.val = 0x3000

/-- Rust `str::trim`: strip leading and trailing whitespace. -/
def trimChars (s : List Char) : List Char :=
  ((s.dropWhile isRustWhitespace).reverse.dropWhile isRustWhitespace).reverse

/-- `line.trim().starts_with("#")`: the trimmed line begins with `'#'`. -/
def startsWithHash : List Char → Bool
  | '#' :: _ => true
  | _ => false

/--
`fn add_service_name_to_metric_line(&self, line: &String, container_name: &str) -> String`,
on the underlying character lists.  Mirrors the source:
1. comment/meta lines (trimmed line starts with `#`) are returned unaltered;
2. if the line contains `'\x7b'`, split just after the first one and inject
   `container_name=<name>,` there;
3. otherwise, if it contains `' '`, split at the first one and insert a new
   brace group `\x7bcontainer_name=<name>\x7d`;
4. otherwise return the line unchanged (the source logs it via `info!`).
-/
def addCore (line : List Char) (container_name : List Char) : List Char :=
  if startsWithHash (trimChars line) then line
  else
    let service_label := "container_name=".data ++ container_name
    match line.findIdx? (fun c => c = '\x7b') with
    | some bracket_position =>
      let line_left := line.take (bracket_position + 1)
      let line_right := line.drop (bracket_position + 1)
      line_left ++ service_label ++ [','] ++ line_right
    | none =>
      match line.findIdx? (fun c => c = ' ') with
      | some space_pos =>
        let line_left := line.take space_pos
        let line_right := line.drop space_pos
        line_left ++ ['\x7b'] ++ service_label ++ ['\x7d'] ++ line_right
      | none => line

/-- String-level wrapper of `addCore`. -/
def add_service_name_to_metric_line (line : String) (container_name : String) : String :=
  String.mk (addCore line.data container_name.data)

/-- `bollard::models::ContainerSummary`, restricted to the fields the
exporter reads: `id: Option<String>`, `labels: Option<HashMap<String, String>>`.
The hash map is modelled as an association list with first-match lookup
(keys are unique in a `HashMap`, so first-match agrees with map lookup). -/
structure ContainerSummary where
  id : Option String
  labels : Option (List (String × String))

/-- `HashMap::get` on the association-list model of the label map. -/
def labelsGet (labels : List (String × String)) (key : String) : Option String :=
  (labels.find? (fun kv => kv.fst = key)).map (fun kv => kv.snd)

/-- The display name resolved in `get_combined_metrics_from_all_containers`:
`container.labels.clone().unwrap_or(HashMap::new()).get("com.amazonaws.ecs.container-name").unwrap_or(&UNKNOWN_SERVICE_NAME.to_string())`. -/
def aws_container_name (container : ContainerSummary) : String :=
  (labelsGet (container.labels.getD []) "com.amazonaws.ecs.container-name").getD
    UNKNOWN_SERVICE_NAME

/-- The port-and-path resolved in `create_docker_exec_for_curl`:
`container.labels.unwrap_or(HashMap::new()).get(&self.label_has_metrics).unwrap_or(&DEFAULT_SERVICE_PORT_PATH.to_string())`. -/
def port_and_metric_path (container : ContainerSummary) (label_has_metrics : String) : String :=
  (labelsGet (container.labels.getD []) label_has_metrics).getD DEFAULT_SERVICE_PORT_PATH

/-- `format!("http://localhost:\x7b\x7d", port_and_metric_path)`. -/
def curl_url (container : ContainerSummary) (label_has_metrics : String) : String :=
  "http://localhost:" ++ port_and_metric_path container label_has_metrics

/-- `vec!["/bin/curl", "-s", curl_url.as_str()]`: the exec command built in
`create_docker_exec_for_curl`. -/
def curl_command (container : ContainerSummary) (label_has_metrics : String) : List String :=
  ["/bin/curl", "-s", curl_url container label_has_metrics]

/-- `bollard` errors, structure irrelevant to the exporter. -/
abbrev DockerError := String

/-- `bollard::exec::CreateExecResults`. -/
structure CreateExecResults where
  id : String

/-- One chunk of `bollard::container::LogOutput`, with the byte payload
modelled after `String::from_utf8_lossy` decoding. -/
inductive LogOutput where
  | stdOut (message : String)
  | stdErr (message : String)
  | stdIn (message : String)
  | console (message : String)

/-- `bollard::exec::StartExecResults`, with the attached output stream's
`try_collect()` result folded into the `attached` case. -/
inductive StartExecResults where
  | attached (output : Except DockerError (List LogOutput))
  | detached

/-- The part of `bollard`'s exec-inspect response the exporter reads:
`exit_code: Option<i64>`. -/
structure ExecInspectResponse where
  exit_code : Option Int

/-- Rust `str::split('\n')`: always at least one piece; a trailing newline
yields a trailing empty piece. -/
def splitNl : List Char → List (List Char)
  | [] => [[]]
  | c :: rest =>
    match splitNl rest with
    | [] => [[]]
    | h :: t => if c = '\n' then [] :: h :: t else (c :: h) :: t

/--
`fn start_curl_exec_return_logs(&self, ...) -> Option<Vec<String>>`, as a
function of the `start_exec` response (stream collection folded in):
* start error or `Detached` → `None`;
* collected-stream error → `None`;
* empty collected log → `None`;
* otherwise inspect only `log[0]`: a `StdOut` chunk is lossily decoded and
  split on `'\n'`; any other chunk kind leaves the line vector empty; the
  (possibly empty) vector is returned as `Some`.
-/
def start_curl_exec_return_logs (start_result : Except DockerError StartExecResults) :
    Option (List String) :=
  match start_result with
  | .ok (.attached output) =>
    match output with
    | .error _ => none
    | .ok log =>
      match log with
      | [] => none
      | first :: _ =>
        let output_lines : List String :=
          match first with
          | .stdOut message => (splitNl message.data).map (fun l => String.mk l)
          | .stdErr _ => []
          | .stdIn _ => []
          | .console _ => []
        some output_lines
  | .ok .detached => none
  | .error _ => none

/-- `let exit_code: i64 = match self.docker.inspect_exec(&exec_id).await
\x7b Ok(res) => res.exit_code.unwrap_or(-1), Err(err) => -1 \x7d`. -/
def exec_exit_code (inspect_result : Except DockerError ExecInspectResponse) : Int :=
  match inspect_result with
  | .ok res => res.exit_code.getD (-1)
  | .error _ => -1

/-- The Docker responses consumed while processing one container. -/
structure ContainerEnv where
  create_exec : Except DockerError CreateExecResults
  start_exec : Except DockerError StartExecResults
  inspect_exec : Except DockerError ExecInspectResponse

/-- The Docker responses consumed by one invocation of the pipeline;
`scrape i` holds the responses for the `i`-th discovered container. -/
structure DockerEnv where
  list_containers : Except DockerError (List ContainerSummary)
  scrape : Nat → ContainerEnv

/--
The text one container appends to `metrics` in the loop body of
`get_combined_metrics_from_all_containers` (`.error` models the Rust panic
of `container.id.clone().unwrap()` on a missing id; a `continue`d container
appends the empty string):
* missing id → panic;
* `create_exec` error → skip (`continue`);
* `exit_code != 0 || curl_output.is_none()` → skip (`continue`);
* otherwise the relabeled output lines joined with `"\n"`.
-/
def container_contribution (cenv : ContainerEnv) (container : ContainerSummary) :
    Except String String :=
  match container.id with
  | none => .error "called Option.unwrap on a None value"
  | some _container_id =>
    let name := aws_container_name container
    match cenv.create_exec with
    | .error _ => .ok ""
    | .ok _curl_exec =>
      let curl_output := start_curl_exec_return_logs cenv.start_exec
      let exit_code := exec_exit_code cenv.inspect_exec
      if exit_code ≠ 0 ∨ curl_output.isNone then .ok ""
      else
        .ok (String.intercalate "\n"
          ((curl_output.getD []).map
            (fun line => add_service_name_to_metric_line line name)))

/-- The `for container in containers` loop of
`get_combined_metrics_from_all_containers`, threading the `metrics`
accumulator; `i` is the position of the current container in the discovery
list (used to index the per-container Docker responses). -/
def processContainers (env : DockerEnv) : Nat → List ContainerSummary → String →
    Except String String
  | _, [], metrics => .ok metrics
  | i, container :: rest, metrics =>
    match container.id with
    | none => .error "called Option.unwrap on a None value"
    | some _container_id =>
      let name := aws_container_name container
      match (env.scrape i).create_exec with
      | .error _ => processContainers env (i + 1) rest metrics
      | .ok _curl_exec =>
        let curl_output := start_curl_exec_return_logs (env.scrape i).start_exec
        let exit_code := exec_exit_code (env.scrape i).inspect_exec
        if exit_code ≠ 0 ∨ curl_output.isNone then
          processContainers env (i + 1) rest metrics
        else
          processContainers env (i + 1) rest
            (metrics ++ String.intercalate "\n"
              ((curl_output.getD []).map
                (fun line => add_service_name_to_metric_line line name)))

/-- `async fn get_combined_metrics_from_all_containers(&self) -> Option<String>`:
a discovery error returns `None`; otherwise the loop runs from an empty
`metrics` buffer and the result is returned as `Some`.  The outer `Except`
models a potential panic inside the loop. -/
def get_combined_metrics_from_all_containers (env : DockerEnv) :
    Except String (Option String) :=
  match env.list_containers with
  | .error _ => .ok none
  | .ok containers => (processContainers env 0 containers "").map (fun m => some m)

/-- `warp::Rejection` as produced by `warp::reject()`. -/
inductive Rejection where
  | reject

/-- `pub async fn export_metrics(&self) -> Result<String, warp::Rejection>`:
`None` from the pipeline becomes `Err(warp::reject())`, `Some(m)` becomes
`Ok(m)`. -/
def export_metrics (env : DockerEnv) : Except String (Except Rejection String) :=
  (get_combined_metrics_from_all_containers env).map (fun metrics =>
    match metrics with
    | none => .error Rejection.reject
    | some m => .ok m)

/-- The per-container blocks appended to the accumulator, in discovery
order (one entry per container; a skipped container's block is `""`). -/
def containerBlocks (env : DockerEnv) : Nat → List ContainerSummary → List String
  | _, [] => []
  | i, container :: rest =>
    ((container_contribution (env.scrape i) container).toOption.getD "") ::
      containerBlocks env (i + 1) rest

/-- Concatenation of the per-container blocks, with no separator between
blocks (mirroring `metrics += ...` in the loop). -/
def concatBlocks : List String → String
  | [] => ""
  | b :: bs => b ++ concatBlocks bs

/-! ### Concrete environments used as witnesses and counterexamples -/

/-- A `ContainerEnv` whose responses are never consulted. -/
def unusedContainerEnv : ContainerEnv :=
  { create_exec := .error "unused", start_exec := .error "unused",
    inspect_exec := .error "unused" }

/-- Discovery fails. -/
def c1_env_err : DockerEnv :=
  { list_containers := .error "socket error", scrape := fun _ => unusedContainerEnv }

/-- Discovery returns one container whose scrape exits with status 7. -/
def c1_env_all_fail : DockerEnv :=
  { list_containers := .ok [⟨some "one", none⟩],
    scrape := fun _ =>
      { create_exec := .ok ⟨"e1"⟩,
        start_exec := .ok (.attached (.ok [LogOutput.stdOut "curl: (7) refused"])),
        inspect_exec := .ok ⟨some 7⟩ } }

/-- A healthy single-container scrape environment. -/
def c2_cenv : ContainerEnv :=
  { create_exec := .ok ⟨"e1"⟩,
    start_exec := .ok (.attached (.ok [LogOutput.stdOut "metric_total 1"])),
    inspect_exec := .ok ⟨some 0⟩ }

/-- A container carrying the ECS name label. -/
def c2_container : ContainerSummary :=
  ⟨some "c1", some [("com.amazonaws.ecs.container-name", "web1")]⟩

/-- Two healthy containers, each emitting a single line with no trailing
newline: container 0 emits `a`, container 1 emits `b`. -/
def c6_env : DockerEnv :=
  { list_containers := .ok [⟨some "one", none⟩, ⟨some "two", none⟩],
    scrape := fun i =>
      { create_exec := .ok ⟨"e"⟩,
        start_exec := .ok (.attached (.ok [LogOutput.stdOut (if i = 0 then "a" else "b")])),
        inspect_exec := .ok ⟨some 0⟩ } }

/-- A container whose marker-label value is the empty string. -/
def c7_container : ContainerSummary :=
  ⟨some "cid", some [("metrics.port", "")]⟩

/-- A labelled, running container summary whose `id` field is `None`. -/
def c9_env : DockerEnv :=
  { list_containers := .ok [⟨none, some [("metrics.port", "9100/metrics")]⟩],
    scrape := fun _ => unusedContainerEnv }

/-! ### Helper lemmas -/

theorem string_data_eq {a b : String} (h : a.data = b.data) : a = b := by
  cases a; cases b; cases h; rfl

theorem string_append_data (a b : String) : (a ++ b).data = a.data ++ b.data := rfl

theorem string_mk_append (a b : List Char) :
    String.mk a ++ String.mk b = String.mk (a ++ b) := rfl

theorem string_append_nil (s : String) : s ++ "" = s := by
  apply string_data_eq
  simp [string_append_data]

theorem string_append_assoc (a b c : String) : a ++ b ++ c = a ++ (b ++ c) := by
  apply string_data_eq
  simp [string_append_data]

theorem findIdx?_char_mem {c : Char} {l : List Char} (h : c ∈ l) :
    ∃ p, l.findIdx? (fun x => x = c) = some p :=
  ⟨_, List.findIdx?_eq_some_of_exists ⟨c, h, by simp⟩⟩

theorem findIdx?_char_not_mem {c : Char} {l : List Char} (h : c ∉ l) :
    l.findIdx? (fun x => x = c) = none := by
  rw [List.findIdx?_eq_none_iff]
  intro x hx
  by_contra hxc
  simp only [Bool.not_eq_false, decide_eq_true_eq] at hxc
  exact h (hxc ▸ hx)

theorem string_nil_append (s : String) : "" ++ s = s := by
  apply string_data_eq
  simp [string_append_data]

/-- One loop iteration either panics on a missing id or appends the
container's contribution to the accumulator and moves on. -/
theorem processContainers_cons (env : DockerEnv) (i : Nat)
    (container : ContainerSummary) (rest : List ContainerSummary) (metrics : String) :
    processContainers env i (container :: rest) metrics =
      match container_contribution (env.scrape i) container with
      | .error e => .error e
      | .ok b => processContainers env (i + 1) rest (metrics ++ b) := by
  cases hid : container.id with
  | none => simp [processContainers, container_contribution, hid]
  | some cid =>
    simp only [processContainers, container_contribution, hid]
    cases hce : (env.scrape i).create_exec with
    | error e => simp [string_append_nil]
    | ok er =>
      simp only
      split
      · simp [string_append_nil]
      · rfl

/-- A container with an id never panics: its contribution is an `.ok`. -/
theorem contribution_ok_of_id_some (cenv : ContainerEnv) {container : ContainerSummary}
    {cid : String} (hid : container.id = some cid) :
    ∃ b, container_contribution cenv container = .ok b := by
  simp only [container_contribution, hid]
  cases cenv.create_exec with
  | error e => exact ⟨"", rfl⟩
  | ok er =>
    simp only
    split
    · exact ⟨"", rfl⟩
    · exact ⟨_, rfl⟩

/-- When every container carries an id, the loop returns the accumulator
followed by the concatenation of the per-container blocks. -/
theorem processContainers_eq_concat (env : DockerEnv) :
    ∀ (cs : List ContainerSummary) (i : Nat) (metrics : String),
      (∀ c ∈ cs, (c.id).isSome) →
      processContainers env i cs metrics =
        .ok (metrics ++ concatBlocks (containerBlocks env i cs)) := by
  intro cs
  induction cs with
  | nil =>
    intro i metrics _
    simp [processContainers, containerBlocks, concatBlocks, string_append_nil]
  | cons container rest ih =>
    intro i metrics hids
    obtain ⟨cid, hid⟩ := Option.isSome_iff_exists.mp (hids container (by simp))
    obtain ⟨b, hb⟩ := contribution_ok_of_id_some (env.scrape i) hid
    rw [processContainers_cons, hb]
    show processContainers env (i + 1) rest (metrics ++ b) = _
    rw [ih (i + 1) (metrics ++ b) (fun c hc => hids c (by simp [hc]))]
    simp [containerBlocks, hb, concatBlocks, Except.toOption, string_append_assoc]

/-- A discovered container without an id makes the loop panic. -/
theorem processContainers_error_of_id_none (env : DockerEnv) :
    ∀ (cs : List ContainerSummary) (i : Nat) (metrics : String) (c : ContainerSummary),
      c ∈ cs → c.id = none →
      ∃ e, processContainers env i cs metrics = .error e := by
  intro cs
  induction cs with
  | nil => intro i metrics c hc _; cases hc
  | cons head rest ih =>
    intro i metrics c hc hnone
    cases hhead : head.id with
    | none =>
      exact ⟨"called Option.unwrap on a None value", by simp [processContainers, hhead]⟩
    | some cid =>
      obtain ⟨b, hb⟩ := contribution_ok_of_id_some (env.scrape i) hhead
      rw [processContainers_cons, hb]
      show ∃ e, processContainers env (i + 1) rest (metrics ++ b) = .error e
      rcases List.mem_cons.mp hc with rfl | hmem
      · rw [hnone] at hhead; cases hhead
      · exact ih (i + 1) (metrics ++ b) c hmem hnone

/-- One per-container block per discovered container. -/
theorem containerBlocks_length (env : DockerEnv) :
    ∀ (cs : List ContainerSummary) (i : Nat),
      (containerBlocks env i cs).length = cs.length := by
  intro cs
  induction cs with
  | nil => intro i; rfl
  | cons head rest ih => intro i; simp [containerBlocks, ih]

/-! ### Claim theorems: the line relabeler -/

/-- C5: relabeling is the identity on comment lines — for every line whose
trimmed form starts with `#` and every identity string,
`add_service_name_to_metric_line` returns the line unchanged. -/
theorem c5_comment_identity (line identity : String)
    (h : startsWithHash (trimChars line.data) = true) :
    add_service_name_to_metric_line line identity = line := by
  apply string_data_eq
  simp [add_service_name_to_metric_line, addCore, h]

/-- C5 witness: a concrete comment line passes through unchanged. -/
theorem c5_witness :
    startsWithHash (trimChars "  # HELP http_requests_total".data) = true ∧
    add_service_name_to_metric_line "  # HELP http_requests_total" "web1" =
      "  # HELP http_requests_total" :=
  ⟨by decide, c5_comment_identity "  # HELP http_requests_total" "web1" (by decide)⟩

/-- C3: for every non-comment line containing a `\x7b`, the relabeler splits
immediately after the first `\x7b` and returns
prefix-including-brace ++ `container_name=<name>` ++ `,` ++ remainder. -/
theorem c3_labeled_line (line container_name : String)
    (h1 : startsWithHash (trimChars line.data) = false)
    (h2 : '\x7b' ∈ line.data) :
    ∃ p, line.data.findIdx? (fun c => c = '\x7b') = some p ∧
      add_service_name_to_metric_line line container_name =
        String.mk (line.data.take (p + 1)) ++ "container_name=" ++ container_name ++
          "," ++ String.mk (line.data.drop (p + 1)) := by
  obtain ⟨p, hp⟩ := findIdx?_char_mem h2
  refine ⟨p, hp, ?_⟩
  apply string_data_eq
  simp [add_service_name_to_metric_line, addCore, h1, hp, string_append_data]

/-- C3 witness: relabeling `http_requests_total\x7bmethod="GET"\x7d 5` with
`web1` yields `http_requests_total\x7bcontainer_name=web1,method="GET"\x7d 5`. -/
theorem c3_witness :
    startsWithHash (trimChars "http_requests_total\x7bmethod=\"GET\"\x7d 5".data) = false ∧
    '\x7b' ∈ "http_requests_total\x7bmethod=\"GET\"\x7d 5".data ∧
    (∃ p, "http_requests_total\x7bmethod=\"GET\"\x7d 5".data.findIdx?
        (fun c => c = '\x7b') = some p ∧
      add_service_name_to_metric_line "http_requests_total\x7bmethod=\"GET\"\x7d 5" "web1" =
        String.mk ("http_requests_total\x7bmethod=\"GET\"\x7d 5".data.take (p + 1)) ++
          "container_name=" ++ "web1" ++ "," ++
          String.mk ("http_requests_total\x7bmethod=\"GET\"\x7d 5".data.drop (p + 1))) ∧
    add_service_name_to_metric_line "http_requests_total\x7bmethod=\"GET\"\x7d 5" "web1" =
      "http_requests_total\x7bcontainer_name=web1,method=\"GET\"\x7d 5" :=
  ⟨by decide, by decide,
    c3_labeled_line "http_requests_total\x7bmethod=\"GET\"\x7d 5" "web1"
      (by decide) (by decide),
    by decide⟩

/-- C4: for every non-comment line with no `\x7b` but containing a space, the
relabeler splits at the first space and returns
name ++ `\x7bcontainer_name=<name>\x7d` ++ rest-including-leading-space. -/
theorem c4_unlabeled_line (line container_name : String)
    (h1 : startsWithHash (trimChars line.data) = false)
    (h2 : '\x7b' ∉ line.data) (h3 : ' ' ∈ line.data) :
    ∃ p, line.data.findIdx? (fun c => c = ' ') = some p ∧
      add_service_name_to_metric_line line container_name =
        String.mk (line.data.take p) ++ "\x7bcontainer_name=" ++ container_name ++
          "\x7d" ++ String.mk (line.data.drop p) := by
  obtain ⟨p, hp⟩ := findIdx?_char_mem h3
  refine ⟨p, hp, ?_⟩
  apply string_data_eq
  simp [add_service_name_to_metric_line, addCore, h1, hp,
        findIdx?_char_not_mem h2, string_append_data]

/-- C4 witness: relabeling `http_requests_total 5` with `web1` yields
`http_requests_total\x7bcontainer_name=web1\x7d 5`. -/
theorem c4_witness :
    startsWithHash (trimChars "http_requests_total 5".data) = false ∧
    '\x7b' ∉ "http_requests_total 5".data ∧
    ' ' ∈ "http_requests_total 5".data ∧
    (∃ p, "http_requests_total 5".data.findIdx? (fun c => c = ' ') = some p ∧
      add_service_name_to_metric_line "http_requests_total 5" "web1" =
        String.mk ("http_requests_total 5".data.take p) ++ "\x7bcontainer_name=" ++
          "web1" ++ "\x7d" ++ String.mk ("http_requests_total 5".data.drop p)) ∧
    add_service_name_to_metric_line "http_requests_total 5" "web1" =
      "http_requests_total\x7bcontainer_name=web1\x7d 5" :=
  ⟨by decide, by decide, by decide,
    c4_unlabeled_line "http_requests_total 5" "web1" (by decide) (by decide) (by decide),
    by decide⟩

/-- C8: for every non-comment line containing neither a `\x7b` nor a space,
the relabeler returns the line unchanged. -/
theorem c8_malformed_identity (line container_name : String)
    (h1 : startsWithHash (trimChars line.data) = false)
    (h2 : '\x7b' ∉ line.data) (h3 : ' ' ∉ line.data) :
    add_service_name_to_metric_line line container_name = line := by
  apply string_data_eq
  simp [add_service_name_to_metric_line, addCore, h1,
        findIdx?_char_not_mem h2, findIdx?_char_not_mem h3]

/-- C8 witness: the malformed line `foobar` passes through unchanged. -/
theorem c8_witness :
    startsWithHash (trimChars "foobar".data) = false ∧
    '\x7b' ∉ "foobar".data ∧ ' ' ∉ "foobar".data ∧
    add_service_name_to_metric_line "foobar" "web1" = "foobar" :=
  ⟨by decide, by decide, by decide,
    c8_malformed_identity "foobar" "web1" (by decide) (by decide) (by decide)⟩

/-- C10: the empty string is returned unchanged, and every non-comment,
brace-free line whose first character is a space is split at position 0,
yielding `\x7bcontainer_name=<name>\x7d` prepended to the original line. -/
theorem c10_edge_cases (container_name : String) :
    add_service_name_to_metric_line "" container_name = "" ∧
    ∀ line : String, line.data.head? = some ' ' →
      startsWithHash (trimChars line.data) = false →
      '\x7b' ∉ line.data →
      add_service_name_to_metric_line line container_name =
        "\x7bcontainer_name=" ++ container_name ++ "\x7d" ++ line := by
  refine ⟨rfl, ?_⟩
  intro line hhead h1 h2
  apply string_data_eq
  cases hdata : line.data with
  | nil => rw [hdata] at hhead; cases hhead
  | cons c rest =>
    rw [hdata] at hhead
    cases hhead
    rw [hdata] at h1 h2
    have hfind : (' ' :: rest).findIdx? (fun c => c = ' ') = some 0 := by
      simp [List.findIdx?]
    simp [add_service_name_to_metric_line, addCore, h1, hdata,
          findIdx?_char_not_mem h2, hfind, string_append_data]

/-- C10 witness: a line of spaces gains a synthesized label group with an
empty metric name, prepended at position 0. -/
theorem c10_witness :
    "   ".data.head? = some ' ' ∧
    startsWithHash (trimChars "   ".data) = false ∧
    '\x7b' ∉ "   ".data ∧
    add_service_name_to_metric_line "" "web1" = "" ∧
    add_service_name_to_metric_line "   " "web1" =
      "\x7bcontainer_name=" ++ "web1" ++ "\x7d" ++ "   " :=
  ⟨by decide, by decide, by decide, (c10_edge_cases "web1").1,
    (c10_edge_cases "web1").2 "   " (by decide) (by decide) (by decide)⟩

/-! ### Claim theorems: the aggregation pipeline -/

/-- C1: the pipeline rejects exactly when container discovery fails — a
discovery error produces a rejection, and a successful discovery always
produces a successful (possibly empty) metrics string, whatever the
individual containers' scrapes do (stated under the id-presence
precondition that rules out the `unwrap` panic on a missing container id,
which is the subject of the separate safety analysis). -/
theorem c1_failure_iff_discovery_failure (env : DockerEnv)
    (hids : ∀ cs, env.list_containers = .ok cs → ∀ c ∈ cs, (c.id).isSome) :
    (∀ e, env.list_containers = .error e →
      export_metrics env = .ok (.error Rejection.reject)) ∧
    (∀ cs, env.list_containers = .ok cs →
      ∃ m : String, export_metrics env = .ok (.ok m)) := by
  constructor
  · intro e he
    simp [export_metrics, get_combined_metrics_from_all_containers, he, Except.map]
  · intro cs hcs
    have h := processContainers_eq_concat env cs 0 "" (hids cs hcs)
    exact ⟨"" ++ concatBlocks (containerBlocks env 0 cs),
      by simp [export_metrics, get_combined_metrics_from_all_containers, hcs, h, Except.map]⟩

/-- C1 witness: a discovery error is rejected; with discovery returning one
container whose scrape exits non-zero, the result is still a success (the
empty string). -/
theorem c1_witness :
    c1_env_err.list_containers = .error "socket error" ∧
    export_metrics c1_env_err = .ok (.error Rejection.reject) ∧
    c1_env_all_fail.list_containers = .ok [⟨some "one", none⟩] ∧
    (∃ m : String, export_metrics c1_env_all_fail = .ok (.ok m)) ∧
    export_metrics c1_env_all_fail = .ok (.ok "") :=
  ⟨rfl,
    (c1_failure_iff_discovery_failure c1_env_err
      (by intro cs hcs; rw [show c1_env_err.list_containers = Except.error "socket error"
            from rfl] at hcs; cases hcs)).1 "socket error" rfl,
    rfl,
    (c1_failure_iff_discovery_failure c1_env_all_fail
      (by intro cs hcs c hc
          rw [show c1_env_all_fail.list_containers = Except.ok [⟨some "one", none⟩]
            from rfl] at hcs
          injection hcs with h
          subst h
          rcases List.mem_singleton.mp hc with rfl
          rfl)).2 [⟨some "one", none⟩] rfl,
    rfl⟩

/-- C2: a container with an id contributes its relabeled output lines
(newline-joined) exactly when exec creation succeeded, the scrape returned
a non-empty line vector, and the terminal exit status is zero; in every
other case (create error, non-zero or missing exit status, no collected
output, empty line vector) it contributes the empty string; either way the
loop continues with the next container, appending the contribution. -/
theorem c2_exit_gated_contribution (cenv : ContainerEnv) (container : ContainerSummary)
    (cid : String) (hid : container.id = some cid) :
    (∀ er lines, cenv.create_exec = .ok er →
      start_curl_exec_return_logs cenv.start_exec = some lines →
      lines ≠ [] →
      exec_exit_code cenv.inspect_exec = 0 →
      container_contribution cenv container =
        .ok (String.intercalate "\n"
          (lines.map (fun line =>
            add_service_name_to_metric_line line (aws_container_name container))))) ∧
    (((∃ e, cenv.create_exec = .error e) ∨
      exec_exit_code cenv.inspect_exec ≠ 0 ∨
      start_curl_exec_return_logs cenv.start_exec = none ∨
      start_curl_exec_return_logs cenv.start_exec = some []) →
      container_contribution cenv container = .ok "") ∧
    (∀ env i rest metrics, env.scrape i = cenv →
      ∃ b, container_contribution cenv container = .ok b ∧
        processContainers env i (container :: rest) metrics =
          processContainers env (i + 1) rest (metrics ++ b)) := by
  refine ⟨?_, ?_, ?_⟩
  · intro er lines hce hlines _hne hexit
    simp [container_contribution, hid, hce, hlines, hexit]
  · intro hrej
    rcases hrej with ⟨e, hce⟩ | hexit | hnone | hnil
    · simp [container_contribution, hid, hce]
    · cases hce : cenv.create_exec with
      | error e => simp [container_contribution, hid, hce]
      | ok er => simp [container_contribution, hid, hce, hexit]
    · cases hce : cenv.create_exec with
      | error e => simp [container_contribution, hid, hce]
      | ok er => simp [container_contribution, hid, hce, hnone]
    · cases hce : cenv.create_exec with
      | error e => simp [container_contribution, hid, hce]
      | ok er =>
        by_cases hexit : exec_exit_code cenv.inspect_exec = 0
        · simp [container_contribution, hid, hce, hnil, hexit, String.intercalate]
        · simp [container_contribution, hid, hce, hexit]
  · intro env i rest metrics hscrape
    obtain ⟨b, hb⟩ := contribution_ok_of_id_some cenv hid
    refine ⟨b, hb, ?_⟩
    rw [processContainers_cons, hscrape, hb]

/-- C2 witness: a healthy container (exit 0, one output line) contributes
its relabeled line; flipping the exit status to 7 in the same environment
yields the empty contribution. -/
theorem c2_witness :
    c2_cenv.create_exec = .ok ⟨"e1"⟩ ∧
    start_curl_exec_return_logs c2_cenv.start_exec = some ["metric_total 1"] ∧
    exec_exit_code c2_cenv.inspect_exec = 0 ∧
    container_contribution c2_cenv c2_container =
      .ok (String.intercalate "\n"
        (["metric_total 1"].map (fun line =>
          add_service_name_to_metric_line line (aws_container_name c2_container)))) ∧
    exec_exit_code { c2_cenv with inspect_exec := .ok ⟨some 7⟩ }.inspect_exec ≠ 0 ∧
    container_contribution { c2_cenv with inspect_exec := .ok ⟨some 7⟩ } c2_container =
      .ok "" :=
  ⟨rfl, rfl, rfl,
    (c2_exit_gated_contribution c2_cenv c2_container "c1" rfl).1 ⟨"e1"⟩
      ["metric_total 1"] rfl rfl (by decide) rfl,
    by decide,
    (c2_exit_gated_contribution { c2_cenv with inspect_exec := .ok ⟨some 7⟩ }
      c2_container "c1" rfl).2.1 (Or.inr (Or.inl (by decide)))⟩

/-- C6 counterexample: two containers each emitting the single line `a`
resp. `b` (no trailing newline) produce the aggregate `ab` — the blocks are
concatenated with no separating newline across the container boundary, so
the aggregate is not the newline-join `a\nb` the claim requires. -/
theorem c6_counterexample :
    get_combined_metrics_from_all_containers c6_env = .ok (some "ab") ∧
    export_metrics c6_env = .ok (.ok "ab") ∧
    ("ab" : String) ≠ "a\nb" :=
  ⟨rfl, rfl, by decide⟩

/-- C6 (amended): the aggregate equals the containers' blocks concatenated
directly, in discovery order, with one block per container; within a block
the relabeled lines are newline-joined in emission order (see
`container_contribution`), but no separator is inserted between blocks. -/
theorem c6_blocks_in_discovery_order (env : DockerEnv) (cs : List ContainerSummary)
    (h1 : env.list_containers = .ok cs)
    (h2 : ∀ c ∈ cs, (c.id).isSome) :
    get_combined_metrics_from_all_containers env =
      .ok (some (concatBlocks (containerBlocks env 0 cs))) ∧
    (containerBlocks env 0 cs).length = cs.length := by
  refine ⟨?_, containerBlocks_length env cs 0⟩
  have h := processContainers_eq_concat env cs 0 "" h2
  simp [get_combined_metrics_from_all_containers, h1, h, Except.map, string_nil_append]

/-- C6 witness: the amended block structure evaluated on the two-container
environment of the counterexample. -/
theorem c6_witness :
    c6_env.list_containers = .ok [⟨some "one", none⟩, ⟨some "two", none⟩] ∧
    get_combined_metrics_from_all_containers c6_env =
      .ok (some (concatBlocks (containerBlocks c6_env 0
        [⟨some "one", none⟩, ⟨some "two", none⟩]))) ∧
    concatBlocks (containerBlocks c6_env 0
      [⟨some "one", none⟩, ⟨some "two", none⟩]) = "ab" := by
  refine ⟨rfl, ?_, rfl⟩
  have hids : ∀ c ∈ [(⟨some "one", none⟩ : ContainerSummary), ⟨some "two", none⟩],
      (c.id).isSome := by
    intro c hc
    rcases List.mem_cons.mp hc with rfl | hc'
    · rfl
    · rcases List.mem_singleton.mp hc' with rfl
      rfl
  exact (c6_blocks_in_discovery_order c6_env
    [⟨some "one", none⟩, ⟨some "two", none⟩] rfl hids).1

/-- C7 counterexample: a container whose marker-label value is the empty
string scrapes `http://localhost:` — the empty value is used verbatim, not
replaced by the default `9100/metrics` as the claim states. -/
theorem c7_counterexample :
    labelsGet (c7_container.labels.getD []) "metrics.port" = some "" ∧
    port_and_metric_path c7_container "metrics.port" = "" ∧
    curl_url c7_container "metrics.port" = "http://localhost:" ∧
    port_and_metric_path c7_container "metrics.port" ≠ DEFAULT_SERVICE_PORT_PATH := by
  refine ⟨rfl, rfl, rfl, ?_⟩
  decide

/-- C7 (amended): the scrape target is the container's value for the marker
label, used verbatim whenever the label is present (even if empty), with
the default `9100/metrics` only when the label is absent; the display name
is the value of `com.amazonaws.ecs.container-name`, with `unknown-service`
only when that label is absent. -/
theorem c7_label_fallbacks (container : ContainerSummary) (label_has_metrics : String) :
    (∀ v, labelsGet (container.labels.getD []) label_has_metrics = some v →
      curl_command container label_has_metrics =
        ["/bin/curl", "-s", "http://localhost:" ++ v]) ∧
    (labelsGet (container.labels.getD []) label_has_metrics = none →
      curl_command container label_has_metrics =
        ["/bin/curl", "-s", "http://localhost:" ++ DEFAULT_SERVICE_PORT_PATH]) ∧
    (∀ v, labelsGet (container.labels.getD []) "com.amazonaws.ecs.container-name" = some v →
      aws_container_name container = v) ∧
    (labelsGet (container.labels.getD []) "com.amazonaws.ecs.container-name" = none →
      aws_container_name container = UNKNOWN_SERVICE_NAME) := by
  refine ⟨?_, ?_, ?_, ?_⟩
  · intro v hv
    simp [curl_command, curl_url, port_and_metric_path, hv]
  · intro hnone
    simp [curl_command, curl_url, port_and_metric_path, hnone]
  · intro v hv
    simp [aws_container_name, hv]
  · intro hnone
    simp [aws_container_name, hnone]

/-- C7 witness: both fallbacks fire on a container with no labels, and both
labels are honoured when present. -/
theorem c7_witness :
    labelsGet ((⟨some "x", none⟩ : ContainerSummary).labels.getD []) "metrics.port" = none ∧
    curl_command ⟨some "x", none⟩ "metrics.port" =
      ["/bin/curl", "-s", "http://localhost:" ++ DEFAULT_SERVICE_PORT_PATH] ∧
    aws_container_name ⟨some "x", none⟩ = UNKNOWN_SERVICE_NAME ∧
    labelsGet ((⟨some "y", some [("metrics.port", "8080/stats"),
      ("com.amazonaws.ecs.container-name", "web1")]⟩ : ContainerSummary).labels.getD [])
      "metrics.port" = some "8080/stats" ∧
    curl_command ⟨some "y", some [("metrics.port", "8080/stats"),
      ("com.amazonaws.ecs.container-name", "web1")]⟩ "metrics.port" =
      ["/bin/curl", "-s", "http://localhost:" ++ "8080/stats"] ∧
    aws_container_name ⟨some "y", some [("metrics.port", "8080/stats"),
      ("com.amazonaws.ecs.container-name", "web1")]⟩ = "web1" :=
  ⟨rfl,
    (c7_label_fallbacks ⟨some "x", none⟩ "metrics.port").2.1 rfl,
    (c7_label_fallbacks ⟨some "x", none⟩ "metrics.port").2.2.2 rfl,
    rfl,
    (c7_label_fallbacks ⟨some "y", some [("metrics.port", "8080/stats"),
      ("com.amazonaws.ecs.container-name", "web1")]⟩ "metrics.port").1 "8080/stats" rfl,
    (c7_label_fallbacks ⟨some "y", some [("metrics.port", "8080/stats"),
      ("com.amazonaws.ecs.container-name", "web1")]⟩ "metrics.port").2.2.1 "web1" rfl⟩

/-- C9: when discovery succeeds but returns a container whose id is `None`,
the pipeline panics (the modelled `unwrap`) instead of skipping the
container or returning the `None` failure value. -/
theorem c9_missing_id_panics (env : DockerEnv) (cs : List ContainerSummary)
    (container : ContainerSummary) (h1 : env.list_containers = .ok cs)
    (h2 : container ∈ cs) (h3 : container.id = none) :
    ∃ e, get_combined_metrics_from_all_containers env = .error e := by
  obtain ⟨e, he⟩ := processContainers_error_of_id_none env cs 0 "" container h2 h3
  exact ⟨e, by simp [get_combined_metrics_from_all_containers, h1, he, Except.map]⟩

/-- C9 witness: a single discovered container with `id = None` makes the
pipeline panic. -/
theorem c9_witness :
    c9_env.list_containers = .ok [⟨none, some [("metrics.port", "9100/metrics")]⟩] ∧
    (⟨none, some [("metrics.port", "9100/metrics")]⟩ : ContainerSummary).id = none ∧
    ∃ e, get_combined_metrics_from_all_containers c9_env = .error e :=
  ⟨rfl, rfl,
    c9_missing_id_panics c9_env [⟨none, some [("metrics.port", "9100/metrics")]⟩]
      ⟨none, some [("metrics.port", "9100/metrics")]⟩ rfl (List.mem_singleton.mpr rfl) rfl⟩

end ServiceExporter
